import Mathlib

/-!
Verification development for the moOde OLED display controller
(src/scripts/moode_state_machine.py and src/moode_display.py).

Python strings are modelled as `List Char`; machine state of each
component is modelled as a structure, and each loop body as an explicit
step function folded over the sequence of sampled inputs.
-/

/-- Numeric value of the ASCII apostrophe character, used by the
StreamTitle pattern of `extract_title`. -/
def quoteChar : Char := Char.ofNat 39

/-- Python whitespace characters stripped by str.strip(). -/
def isSpaceChar (c : Char) : Bool :=
  c = ' ' || c = '\t' || c = '\n' || c = '\r' || c = Char.ofNat 11 || c = Char.ofNat 12

/-- Embedding of Python str.strip(): drop whitespace from both ends. -/
def pyStrip (s : List Char) : List Char :=
  ((s.dropWhile isSpaceChar).reverse.dropWhile isSpaceChar).reverse

/-- The literal that opens a StreamTitle tag in an ICY metadata block:
the 13 characters StreamTitle= followed by an apostrophe. -/
def streamTitleKey : List Char := "StreamTitle=".toList ++ [quoteChar]

/-- A character that the regex class excluding apostrophe and semicolon
accepts inside the captured title. -/
def isTitleChar (c : Char) : Bool := !(c = quoteChar || c = ';')

/-- Scans the metadata block left to right for the first position where the
full pattern StreamTitle= quote followed by at least one title character
matches, mirroring re.search backtracking; returns the greedy capture. -/
def extract_title_core : List Char → Option (List Char)
  | [] => none
  | c :: rest =>
    if streamTitleKey.isPrefixOf (c :: rest) then
      let captured := ((c :: rest).drop streamTitleKey.length).takeWhile isTitleChar
      if captured.isEmpty then extract_title_core rest else some captured
    else extract_title_core rest

/-- Embedding of extract_title (src/scripts/moode_state_machine.py, lines
43 to 47): first regex match of the StreamTitle pattern, stripped; `none`
when the block has no match. -/
def extract_title (metadata : List Char) : Option (List Char) :=
  (extract_title_core metadata).map pyStrip

/-- Splits a list at the first position where `sep` occurs, returning the
parts before and after that occurrence; `none` when `sep` never occurs.
This is Python s.split(sep, 1) for a nonempty separator, combined with
the `sep in s` membership test. -/
def splitOnce (sep : List Char) : List Char → Option (List Char × List Char)
  | [] => none
  | c :: r =>
    if sep.isPrefixOf (c :: r) then some ([], (c :: r).drop sep.length)
    else (splitOnce sep r).map (fun p => (c :: p.1, p.2))

/-- The first separator tried by split_artist_title. -/
def sepUnderscore : List Char := "_-_".toList

/-- The second separator tried by split_artist_title. -/
def sepSpaced : List Char := " - ".toList

/-- Embedding of PlayingScreen.split_artist_title
(src/scripts/moode_state_machine.py, lines 402 to 407): split on the first
occurrence of the underscore separator, else on the first occurrence of the
spaced separator, else return the stripped title with an empty song. -/
def split_artist_title (title : List Char) : List Char × List Char :=
  match splitOnce sepUnderscore title with
  | some p => (pyStrip p.1, pyStrip p.2)
  | none =>
    match splitOnce sepSpaced title with
    | some p => (pyStrip p.1, pyStrip p.2)
    | none => (pyStrip title, [])

/-- The Idle player state constant (STATE_IDLE = 0). -/
def STATE_IDLE : ℕ := 0

/-- The Playing player state constant (STATE_PLAYING = 1). -/
def STATE_PLAYING : ℕ := 1

/-- The text marker whose presence in the status output means Playing. -/
def playingMarker : List Char := "[playing]".toList

/-- Python substring membership: `pat` occurs contiguously inside `s`. -/
def containsSub (pat : List Char) : List Char → Bool
  | [] => pat.isEmpty
  | c :: r => pat.isPrefixOf (c :: r) || containsSub pat r

/-- Possible outcomes of running the external status command inside the
try block of get_state: a captured text output, or one of the exception
paths (timeout, non-zero exit, command not found, other failure). -/
inductive StatusResult where
  | ok (out : List Char)
  | timedOut
  | nonZeroExit
  | notFound
deriving DecidableEq

/-- Embedding of get_state (src/scripts/moode_state_machine.py, lines 94
to 101): on captured output, Playing exactly when the playing marker is a
substring; every exception path falls through to Idle. -/
def get_state : StatusResult → ℕ
  | StatusResult.ok out => if containsSub playingMarker out then STATE_PLAYING else STATE_IDLE
  | StatusResult.timedOut => STATE_IDLE
  | StatusResult.nonZeroExit => STATE_IDLE
  | StatusResult.notFound => STATE_IDLE

/-- Possible outcomes of the volume queries made by get_volume_percent:
the mpc path captures a nonnegative integer matched by the digits regex,
the Moode HTTP fallback parses an arbitrary integer, and any failure of
both paths yields the default. -/
inductive VolQuery where
  | mpc (v : ℕ)
  | moode (v : ℤ)
  | failure
deriving DecidableEq

/-- Embedding of get_volume_percent (src/scripts/moode_state_machine.py,
lines 50 to 66): clamp the parsed value into 0..100, default 50 on
failure. -/
def get_volume_percent : VolQuery → ℕ
  | VolQuery.mpc v => max 0 (min 100 v)
  | VolQuery.moode v => (max 0 (min 100 v)).toNat
  | VolQuery.failure => 50

/-- Embedding of the bar width computation of PlayingScreen._draw
(src/scripts/moode_state_machine.py, line 454): bar_w = int(90 * vol / 100),
where int truncates the nonnegative quotient, i.e. natural division. -/
def playing_bar_width (vol : ℕ) : ℕ := 90 * vol / 100

/-- Embedding of the bar width computation of
OLEDNowPlayingWithVolumeHandler._draw (src/moode_display.py, line 193):
bar_w = int(70 * vol / 100). -/
def display_bar_width (vol : ℕ) : ℕ := 70 * vol / 100

/-- The state of the claimed bar width, following the words of the spec:
round(barMaxWidth * vol / 100) with barMaxWidth = 90. -/
def spec_round_bar_width (vol : ℕ) : ℤ := round ((90 : ℚ) * vol / 100)

/-- Mutable state of NowPlayingExtractHandler that the poll loop touches:
the last stored raw metadata block and the last extracted title. -/
structure ReaderState where
  last_metadata : List Char
  last_title : List Char
deriving DecidableEq

/-- The title delivered to the screen when a fresh block is stored: the
extracted title, or empty when the block has no StreamTitle match. -/
def titleOrEmpty (meta : List Char) : List Char := (extract_title meta).getD []

/-- Embedding of one iteration of NowPlayingExtractHandler._loop
(src/scripts/moode_state_machine.py, lines 179 to 192) acting on the block
returned by the poll. The second component records the title callback:
`some (some t)` is coro(t) after storing a fresh block, `some none` is
coro(None) for an identical block, and `none` means the empty block made
no callback at all. -/
def loopStep (st : ReaderState) (meta : List Char) :
    ReaderState × Option (Option (List Char)) :=
  if meta ≠ [] then
    if meta ≠ st.last_metadata then
      ({ last_metadata := meta, last_title := titleOrEmpty meta },
        some (some (titleOrEmpty meta)))
    else (st, some none)
  else (st, none)

/-- Per-screen mutable state of PlayingScreen that the two callbacks
touch: current title, the two scroll offsets and the displayed volume. -/
structure ScreenState where
  current_title : List Char
  scroll_offset_artist : ℕ
  scroll_offset_song : ℕ
  current_volume : ℕ
deriving DecidableEq

/-- The fixed scroll step of PlayingScreen (self._scroll_speed = 2). -/
def scrollSpeed : ℕ := 2

/-- Embedding of PlayingScreen._oled_title_coro
(src/scripts/moode_state_machine.py, lines 459 to 466): only a delivered
title that is truthy (non-None and non-empty) and differs from the current
title updates the title and resets both scroll offsets. -/
def titleCoro (sc : ScreenState) (title : Option (List Char)) : ScreenState :=
  match title with
  | some t =>
    if t ≠ [] ∧ t ≠ sc.current_title then
      { sc with current_title := t, scroll_offset_artist := 0, scroll_offset_song := 0 }
    else sc
  | none => sc

/-- Embedding of PlayingScreen._oled_update_coro
(src/scripts/moode_state_machine.py, lines 468 to 474): advance both
scroll offsets by the scroll step and refresh the volume. -/
def updateCoro (sc : ScreenState) (q : VolQuery) : ScreenState :=
  { sc with
    scroll_offset_artist := sc.scroll_offset_artist + scrollSpeed
    scroll_offset_song := sc.scroll_offset_song + scrollSpeed
    current_volume := get_volume_percent q }

/-- One poll observation driving MoodeStateMachine.run: the state the
Poller returned, together with whether the bounded join of the cancelled
task (asyncio.wait_for with timeout 0.5) expired before the task
finished. -/
structure PollInput where
  newState : ℕ
  joinTimedOut : Bool
deriving DecidableEq

/-- State of the task lifecycle that MoodeStateMachine manipulates: the
current machine state, whether play_task holds a handle, and how many
cancelled-but-not-yet-finished tasks are still running after their
bounded join timed out. -/
structure SMState where
  state : ℕ
  hasHandle : Bool
  zombies : ℕ
deriving DecidableEq

/-- Number of Playing-screen background tasks currently running: the one
held by play_task, if any, plus every cancelled task whose join timed out
and that has not yet finished. -/
def runningTasks (s : SMState) : ℕ := (if s.hasHandle then 1 else 0) + s.zombies

/-- Embedding of MoodeStateMachine._apply_state
(src/scripts/moode_state_machine.py, lines 501 to 510): on Idle it cancels
a still-held task without joining it (leaving it running for a while) and
drops the handle, then records the new state. -/
def apply_state (s : SMState) (new : ℕ) : SMState :=
  let s1 :=
    if new = STATE_IDLE ∧ s.hasHandle then
      { s with hasHandle := false, zombies := s.zombies + 1 }
    else s
  { s1 with state := new }

/-- Embedding of one poll tick of MoodeStateMachine.run
(src/scripts/moode_state_machine.py, lines 517 to 537): on a state change
into Idle the held task is cancelled and joined with a bounded timeout;
if the join times out the code proceeds anyway (except: pass) and clears
the handle, so the old task may still be running. After the transition, a
task is started when the state is Playing and no handle exists. -/
def pollStep (s : SMState) (inp : PollInput) : SMState :=
  let s1 :=
    if inp.newState ≠ s.state then
      let s0 :=
        if inp.newState = STATE_IDLE ∧ s.hasHandle then
          if inp.joinTimedOut then
            { s with hasHandle := false, zombies := s.zombies + 1 }
          else
            { s with hasHandle := false }
        else s
      apply_state s0 inp.newState
    else s
  if s1.state = STATE_PLAYING ∧ ¬s1.hasHandle then
    { s1 with hasHandle := true }
  else s1

/-- Embedding of MoodeStateMachine.__init__ lines 497 to 498: the machine
starts with no task handle, in the state the initial poll returned. -/
def initSM (s0 : ℕ) : SMState := apply_state { state := s0, hasHandle := false, zombies := 0 } s0

/-- Run of the poll loop of MoodeStateMachine.run over a sequence of
Poller observations. -/
def runSM (s0 : ℕ) (inputs : List PollInput) : SMState :=
  inputs.foldl pollStep (initSM s0)

/-- State the sampling loop of GPIOButton mutates: the last observed
line level, the monotonic time of the last accepted press, and how many
times on_press has been invoked. -/
structure ButtonLoopState where
  last_state : ℕ
  last_press : ℚ
  presses : ℕ
deriving DecidableEq

/-- Embedding of one iteration of GPIOButton._loop
(src/scripts/moode_state_machine.py, lines 259 to 278) at a sampled line
level and monotonic time: on a 1 to 0 edge the press is accepted only if
the hardcoded literal 0.05 has elapsed since the last accepted press; the
stored last level is updated on every sample. -/
def button_sample_step (s : ButtonLoopState) (value : ℕ) (now : ℚ) : ButtonLoopState :=
  if value ≠ s.last_state then
    if value = 0 ∧ s.last_state = 1 then
      if now - s.last_press ≥ 1/20 then
        { last_state := value, last_press := now, presses := s.presses + 1 }
      else { s with last_state := value }
    else { s with last_state := value }
  else { s with last_state := value }

/-- The step that the claim describes, identical to button_sample_step
except that the refractory comparison uses the configured debounce
attribute that GPIOButton.__init__ stores (default 0.1) instead of the
hardcoded literal 0.05. -/
def button_sample_step_claimed (debounce : ℚ) (s : ButtonLoopState) (value : ℕ)
    (now : ℚ) : ButtonLoopState :=
  if value ≠ s.last_state then
    if value = 0 ∧ s.last_state = 1 then
      if now - s.last_press ≥ debounce then
        { last_state := value, last_press := now, presses := s.presses + 1 }
      else { s with last_state := value }
    else { s with last_state := value }
  else { s with last_state := value }

/-- Run of the GPIOButton sampling loop over a list of (level, time)
samples, starting from the initial level read in __init__ with
_last_press = 0.0 and no presses. -/
def runButton (initLevel : ℕ) (samples : List (ℕ × ℚ)) : ButtonLoopState :=
  samples.foldl (fun s p => button_sample_step s p.1 p.2)
    { last_state := initLevel, last_press := 0, presses := 0 }

/-- Run of the sampling loop under the claimed semantics that compares
against the configured debounce attribute. -/
def runButtonClaimed (debounce : ℚ) (initLevel : ℕ) (samples : List (ℕ × ℚ)) :
    ButtonLoopState :=
  samples.foldl (fun s p => button_sample_step_claimed debounce s p.1 p.2)
    { last_state := initLevel, last_press := 0, presses := 0 }

/-- The debounce default of GPIOButton.__init__ (debounce: float = 0.1). -/
def buttonDebounceDefault : ℚ := 1/10

/-- Lifecycle flags of GPIOButton touched by stop: the threading stop
event and whether the gpiod line request has been released. -/
structure GPIOButtonRes where
  stop_set : Bool
  line_released : Bool
deriving DecidableEq

/-- Releasing the gpiod line request: raises when the request was already
released, succeeds otherwise. -/
def releaseLine (released : Bool) : Except Unit Unit :=
  if released then Except.error () else Except.ok ()

/-- Embedding of GPIOButton.stop (src/scripts/moode_state_machine.py,
lines 280 to 285): set the stop event, then try to release the line,
swallowing any exception. The second component is whether an error
propagates to the caller, which is always false because of the
try/except pass. -/
def gpio_button_stop (s : GPIOButtonRes) : GPIOButtonRes × Bool :=
  let s1 : GPIOButtonRes := { s with stop_set := true }
  match releaseLine s1.line_released with
  | Except.ok _ => ({ s1 with line_released := true }, false)
  | Except.error _ => (s1, false)

/-- The hard per-poll timeout of NowPlayingExtractHandler._read_metadata_async
(asyncio.wait_for with timeout=3.0, line 166). -/
def metadataPollTimeout : ℚ := 3

/-- The request timeout of the inner blocking read (timeout=2, line 139). -/
def metadataRequestTimeout : ℚ := 2

/-- The poll interval that PlayingScreen passes to the metadata handler
(interval: float = 0.2, line 356). -/
def playingScreenInterval : ℚ := 1/5

/-- The default poll interval of NowPlayingExtractHandler (interval:
float = 2.0, line 113). -/
def handlerDefaultInterval : ℚ := 2

/-- Outcomes of one call of _read_metadata_async: the inner read returned
a block, the hard timeout expired, or the executor raised. -/
inductive MetaReadOutcome where
  | ok (block : List Char)
  | timedOut
  | failed
deriving DecidableEq

/-- Embedding of NowPlayingExtractHandler._read_metadata_async
(src/scripts/moode_state_machine.py, lines 159 to 173): the block on
success, the empty string on timeout or any exception. -/
def read_metadata_async : MetaReadOutcome → List Char
  | MetaReadOutcome.ok b => b
  | MetaReadOutcome.timedOut => []
  | MetaReadOutcome.failed => []

/-- The decomposition of `t` at the first occurrence of `sep`: `t` is
`a ++ sep ++ b` and `sep` occurs at no position strictly before the end
of `a`. -/
def FirstSplitAt (sep t a b : List Char) : Prop :=
  t = a ++ sep ++ b ∧ ∀ i < a.length, ¬ sep <+: t.drop i

/-- The separator occurs nowhere in `t` (all start positions checked). -/
def NoSepOcc (sep t : List Char) : Prop :=
  ∀ i < t.length, ¬ sep <+: t.drop i

instance (sep t a b : List Char) : Decidable (FirstSplitAt sep t a b) := by
  unfold FirstSplitAt; infer_instance

instance (sep t : List Char) : Decidable (NoSepOcc sep t) := by
  unfold NoSepOcc; infer_instance

theorem splitOnce_some (sep : List Char) (s : List Char) :
    ∀ a b, splitOnce sep s = some (a, b) →
      s = a ++ sep ++ b ∧ ∀ i < a.length, ¬ sep <+: s.drop i := by
  induction s with
  | nil => intro a b h; simp [splitOnce] at h
  | cons c r ih =>
    intro a b h
    rw [splitOnce] at h
    by_cases hp : sep.isPrefixOf (c :: r) = true
    · rw [if_pos hp] at h
      simp only [Option.some.injEq, Prod.mk.injEq] at h
      obtain ⟨ha, hb⟩ := h
      subst ha
      constructor
      · obtain ⟨t, ht⟩ := List.isPrefixOf_iff_prefix.mp hp
        subst hb
        rw [List.nil_append, ← ht, List.drop_left]
      · intro i hi; simp at hi
    · rw [if_neg hp] at h
      obtain ⟨p, hp2, hf⟩ := Option.map_eq_some'.mp h
      simp only [Prod.mk.injEq] at hf
      obtain ⟨ha, hb⟩ := hf
      subst ha; subst hb
      obtain ⟨ih1, ih2⟩ := ih p.1 p.2 (by rw [hp2])
      constructor
      · simp [ih1]
      · intro i hi
        match i with
        | 0 =>
          intro hpre
          exact hp (List.isPrefixOf_iff_prefix.mpr hpre)
        | Nat.succ j =>
          have : j < p.1.length := by simpa using hi
          simpa using ih2 j this

theorem splitOnce_none (sep : List Char) (hsep : sep ≠ []) (s : List Char) :
    splitOnce sep s = none → ∀ i, ¬ sep <+: s.drop i := by
  induction s with
  | nil =>
    intro _ i hpre
    rw [List.drop_nil] at hpre
    obtain ⟨t, ht⟩ := hpre
    rw [List.append_eq_nil] at ht
    exact hsep ht.1
  | cons c r ih =>
    intro h i
    rw [splitOnce] at h
    by_cases hp : sep.isPrefixOf (c :: r) = true
    · rw [if_pos hp] at h; simp at h
    · rw [if_neg hp] at h
      have hr : splitOnce sep r = none := by
        cases hq : splitOnce sep r with
        | none => rfl
        | some p => rw [hq] at h; simp at h
      match i with
      | 0 =>
        intro hpre
        exact hp (List.isPrefixOf_iff_prefix.mpr hpre)
      | Nat.succ j =>
        simpa using ih hr j

theorem firstSplitAt_unique (sep t a b a2 b2 : List Char)
    (h1 : FirstSplitAt sep t a b) (h2 : FirstSplitAt sep t a2 b2) :
    a = a2 ∧ b = b2 := by
  obtain ⟨e1, m1⟩ := h1
  obtain ⟨e2, m2⟩ := h2
  have hlen : a.length = a2.length := by
    rcases Nat.lt_trichotomy a.length a2.length with hlt | heq | hgt
    · exfalso
      apply m2 a.length hlt
      rw [e1, List.append_assoc, List.drop_left]
      exact List.prefix_append sep b
    · exact heq
    · exfalso
      apply m1 a2.length hgt
      rw [e2, List.append_assoc, List.drop_left]
      exact List.prefix_append sep b2
  have he : a ++ (sep ++ b) = a2 ++ (sep ++ b2) := by
    rw [← List.append_assoc, ← List.append_assoc, ← e1, ← e2]
  obtain ⟨ha, hrest⟩ := List.append_inj he hlen
  exact ⟨ha, List.append_cancel_left hrest⟩

theorem splitOnce_of_firstSplitAt (sep t a b : List Char) (hsep : sep ≠ [])
    (h : FirstSplitAt sep t a b) : splitOnce sep t = some (a, b) := by
  cases hq : splitOnce sep t with
  | none =>
    exfalso
    have := splitOnce_none sep hsep t hq a.length
    apply this
    rw [h.1, List.append_assoc, List.drop_left]
    exact List.prefix_append sep b
  | some p =>
    obtain ⟨e, m⟩ := splitOnce_some sep t p.1 p.2 (by rw [hq])
    obtain ⟨ha, hb⟩ := firstSplitAt_unique sep t a b p.1 p.2 h ⟨e, m⟩
    rw [ha, hb]

theorem splitOnce_eq_none_of_noSepOcc (sep t : List Char) (hsep : sep ≠ [])
    (h : NoSepOcc sep t) : splitOnce sep t = none := by
  cases hq : splitOnce sep t with
  | none => rfl
  | some p =>
    exfalso
    obtain ⟨e, _⟩ := splitOnce_some sep t p.1 p.2 (by rw [hq])
    have hlt : p.1.length < t.length := by
      rw [e]
      simp only [List.length_append]
      have : 0 < sep.length := List.length_pos.mpr hsep
      omega
    apply h p.1.length hlt
    rw [e, List.append_assoc, List.drop_left]
    exact List.prefix_append sep p.2

theorem pollStep_zombies (s : SMState) (inp : PollInput)
    (hj : inp.joinTimedOut = false) (hz : s.zombies = 0) :
    (pollStep s inp).zombies = 0 := by
  rcases s with ⟨st, hh, z⟩
  rcases inp with ⟨nw, jt⟩
  simp only [SMState.zombies] at hz
  simp only [PollInput.joinTimedOut] at hj
  subst hz
  subst hj
  unfold pollStep apply_state
  cases hh <;> by_cases h1 : nw = st <;> by_cases h2 : nw = STATE_IDLE <;>
    simp [h1, h2] <;> split_ifs <;> simp_all

theorem foldl_pollStep_zombies (l : List PollInput) :
    ∀ s : SMState, (∀ i ∈ l, i.joinTimedOut = false) → s.zombies = 0 →
      (l.foldl pollStep s).zombies = 0 := by
  induction l with
  | nil => intro s _ hz; simpa using hz
  | cons a l ih =>
    intro s hall hz
    rw [List.foldl_cons]
    exact ih _ (fun i hi => hall i (List.mem_cons_of_mem a hi))
      (pollStep_zombies s a (hall a (List.mem_cons_self a l)) hz)

/-- C1 counterexample: the claim that the number of concurrently-running
Playing-screen tasks is always 0 or 1 fails on the code. After the poll
sequence Playing, Idle (with the bounded join of the cancelled task
expiring, the except clause swallowing asyncio.TimeoutError and the
handle being cleared anyway), Playing, the machine has started a second
task while the first cancelled one is still running: two tasks run at
once. -/
theorem c1_counterexample :
    runningTasks (runSM STATE_IDLE
      [{ newState := STATE_PLAYING, joinTimedOut := false },
       { newState := STATE_IDLE, joinTimedOut := true },
       { newState := STATE_PLAYING, joinTimedOut := false }]) = 2 ∧
    ¬ runningTasks (runSM STATE_IDLE
      [{ newState := STATE_PLAYING, joinTimedOut := false },
       { newState := STATE_IDLE, joinTimedOut := true },
       { newState := STATE_PLAYING, joinTimedOut := false }]) ≤ 1 := by
  decide

/-- C1 amended: at most one task handle ever exists, and a new task is
started only when no handle exists; whenever every bounded join of a
cancelled task completes within its timeout, the number of running
Playing-screen tasks after any sequence of Poller results is at most
one. If a join times out, the code proceeds anyway and a not-yet-finished
old task can briefly overlap the next started task. -/
theorem c1_sm_single_task (s0 : ℕ) (inputs : List PollInput)
    (h : ∀ i ∈ inputs, i.joinTimedOut = false) :
    runningTasks (runSM s0 inputs) ≤ 1 := by
  have hz : (runSM s0 inputs).zombies = 0 := by
    rw [runSM]
    apply foldl_pollStep_zombies inputs _ h
    simp [initSM, apply_state]
  rw [runningTasks, hz]
  cases (runSM s0 inputs).hasHandle <;> simp

/-- C1 witness: a concrete Playing, Idle, Playing sequence with every
join completing in time keeps the running-task count at or below one. -/
theorem c1_sm_single_task_witness :
    runningTasks (runSM STATE_IDLE
      [{ newState := STATE_PLAYING, joinTimedOut := false },
       { newState := STATE_IDLE, joinTimedOut := false },
       { newState := STATE_PLAYING, joinTimedOut := false }]) ≤ 1 :=
  c1_sm_single_task STATE_IDLE
    [{ newState := STATE_PLAYING, joinTimedOut := false },
     { newState := STATE_IDLE, joinTimedOut := false },
     { newState := STATE_PLAYING, joinTimedOut := false }]
    (by decide)

/-- C2: for a non-empty block identical to the stored one the loop calls
the title callback with None and leaves both stored fields unchanged; for
a non-empty differing block it stores the block and calls the callback
with the freshly extracted title, empty when the block has no
StreamTitle match. -/
theorem c2_reader_emit (st : ReaderState) (m1 m2 : List Char)
    (h1 : m1 ≠ []) (h2 : m1 = st.last_metadata)
    (h3 : m2 ≠ []) (h4 : m2 ≠ st.last_metadata) :
    loopStep st m1 = (st, some none) ∧
    loopStep st m2 =
      ({ last_metadata := m2, last_title := titleOrEmpty m2 },
        some (some (titleOrEmpty m2))) := by
  constructor
  · subst h2
    simp [loopStep, h1]
  · simp [loopStep, h3, h4]

/-- C2 witness: concrete repeated and fresh blocks. -/
theorem c2_reader_emit_witness :
    loopStep { last_metadata := "a".toList, last_title := [] } "a".toList =
      ({ last_metadata := "a".toList, last_title := [] }, some none) ∧
    loopStep { last_metadata := "a".toList, last_title := [] } "b".toList =
      ({ last_metadata := "b".toList, last_title := titleOrEmpty "b".toList },
        some (some (titleOrEmpty "b".toList))) :=
  c2_reader_emit { last_metadata := "a".toList, last_title := [] }
    "a".toList "b".toList (by decide) (by decide) (by decide) (by decide)

/-- C3: split_artist_title splits at the first occurrence of the
underscore separator when one occurs, else at the first occurrence of the
spaced separator when one occurs, both parts stripped, and otherwise
returns the stripped title with an empty song; as a Lean function it is
pure by construction. -/
theorem c3_split_artist_title
    (t1 a1 b1 t2 a2 b2 t3 : List Char)
    (h1 : FirstSplitAt sepUnderscore t1 a1 b1)
    (h2 : NoSepOcc sepUnderscore t2)
    (h3 : FirstSplitAt sepSpaced t2 a2 b2)
    (h4 : NoSepOcc sepUnderscore t3)
    (h5 : NoSepOcc sepSpaced t3) :
    split_artist_title t1 = (pyStrip a1, pyStrip b1) ∧
    split_artist_title t2 = (pyStrip a2, pyStrip b2) ∧
    split_artist_title t3 = (pyStrip t3, []) := by
  have hsep1 : sepUnderscore ≠ [] := by decide
  have hsep2 : sepSpaced ≠ [] := by decide
  refine ⟨?_, ?_, ?_⟩
  · rw [split_artist_title, splitOnce_of_firstSplitAt sepUnderscore t1 a1 b1 hsep1 h1]
  · rw [split_artist_title, splitOnce_eq_none_of_noSepOcc sepUnderscore t2 hsep1 h2,
      splitOnce_of_firstSplitAt sepSpaced t2 a2 b2 hsep2 h3]
  · rw [split_artist_title, splitOnce_eq_none_of_noSepOcc sepUnderscore t3 hsep1 h4,
      splitOnce_eq_none_of_noSepOcc sepSpaced t3 hsep2 h5]

/-- C3 witness: a title where the underscore separator occurs twice (the
first occurrence wins and the spaced separator inside the artist part is
ignored), a title with only the spaced separator occurring twice, and a
separator-free title. -/
theorem c3_split_artist_title_witness :
    split_artist_title "AC - DC_-_Thunder_-_Live".toList =
      (pyStrip "AC - DC".toList, pyStrip "Thunder_-_Live".toList) ∧
    split_artist_title "Artist X - Song - Y".toList =
      (pyStrip "Artist X".toList, pyStrip "Song - Y".toList) ∧
    split_artist_title " Radio Most ".toList =
      (pyStrip " Radio Most ".toList, []) :=
  c3_split_artist_title "AC - DC_-_Thunder_-_Live".toList "AC - DC".toList
    "Thunder_-_Live".toList "Artist X - Song - Y".toList "Artist X".toList
    "Song - Y".toList " Radio Most ".toList
    (by decide) (by decide) (by decide) (by decide) (by decide)

/-- C4 counterexample: the claim that the scroll offsets are reset
exactly when a delivered title differs from the current one fails on the
code: an empty delivered title that differs from the current title leaves
the offsets (and everything else) unchanged, because the callback also
requires the title to be truthy. -/
theorem c4_counterexample :
    ([] : List Char) ≠
      ({ current_title := "X".toList, scroll_offset_artist := 4,
         scroll_offset_song := 6, current_volume := 50 } : ScreenState).current_title ∧
    titleCoro
      { current_title := "X".toList, scroll_offset_artist := 4,
        scroll_offset_song := 6, current_volume := 50 } (some []) =
      { current_title := "X".toList, scroll_offset_artist := 4,
        scroll_offset_song := 6, current_volume := 50 } ∧
    (titleCoro
      { current_title := "X".toList, scroll_offset_artist := 4,
        scroll_offset_song := 6, current_volume := 50 } (some [])).scroll_offset_artist
      ≠ 0 := by
  decide

/-- C4 amended: the scroll offsets are reset to 0 exactly when a
non-empty title arrives that differs from the currently displayed title;
a no-change tick (callback with None) and an empty or equal delivered
title leave the screen untouched, and the update tick always advances
both offsets by the fixed scroll step regardless of title change. -/
theorem c4_scroll_reset (sc : ScreenState) (t u : List Char) (q : VolQuery)
    (h1 : t ≠ []) (h2 : t ≠ sc.current_title)
    (h3 : u = [] ∨ u = sc.current_title) :
    (titleCoro sc (some t)).scroll_offset_artist = 0 ∧
    (titleCoro sc (some t)).scroll_offset_song = 0 ∧
    (titleCoro sc (some t)).current_title = t ∧
    titleCoro sc none = sc ∧
    titleCoro sc (some u) = sc ∧
    (updateCoro sc q).scroll_offset_artist = sc.scroll_offset_artist + scrollSpeed ∧
    (updateCoro sc q).scroll_offset_song = sc.scroll_offset_song + scrollSpeed ∧
    (updateCoro sc q).current_title = sc.current_title := by
  have ht : titleCoro sc (some t) =
      { sc with current_title := t, scroll_offset_artist := 0, scroll_offset_song := 0 } := by
    simp [titleCoro, h1, h2]
  have hu : titleCoro sc (some u) = sc := by
    rcases h3 with rfl | rfl <;> simp [titleCoro]
  exact ⟨by rw [ht], by rw [ht], by rw [ht], rfl, hu, rfl, rfl, rfl⟩

/-- C4 witness: a concrete fresh title resets the offsets while a
repeated title and the update tick behave as stated. -/
theorem c4_scroll_reset_witness :
    (titleCoro
      { current_title := "X".toList, scroll_offset_artist := 4,
        scroll_offset_song := 6, current_volume := 50 }
      (some "Y".toList)).scroll_offset_artist = 0 ∧
    (titleCoro
      { current_title := "X".toList, scroll_offset_artist := 4,
        scroll_offset_song := 6, current_volume := 50 }
      (some "Y".toList)).scroll_offset_song = 0 ∧
    (titleCoro
      { current_title := "X".toList, scroll_offset_artist := 4,
        scroll_offset_song := 6, current_volume := 50 }
      (some "Y".toList)).current_title = "Y".toList ∧
    titleCoro
      { current_title := "X".toList, scroll_offset_artist := 4,
        scroll_offset_song := 6, current_volume := 50 } none =
      { current_title := "X".toList, scroll_offset_artist := 4,
        scroll_offset_song := 6, current_volume := 50 } ∧
    titleCoro
      { current_title := "X".toList, scroll_offset_artist := 4,
        scroll_offset_song := 6, current_volume := 50 } (some "X".toList) =
      { current_title := "X".toList, scroll_offset_artist := 4,
        scroll_offset_song := 6, current_volume := 50 } ∧
    (updateCoro
      { current_title := "X".toList, scroll_offset_artist := 4,
        scroll_offset_song := 6, current_volume := 50 }
      (VolQuery.mpc 73)).scroll_offset_artist = 4 + scrollSpeed ∧
    (updateCoro
      { current_title := "X".toList, scroll_offset_artist := 4,
        scroll_offset_song := 6, current_volume := 50 }
      (VolQuery.mpc 73)).scroll_offset_song = 6 + scrollSpeed ∧
    (updateCoro
      { current_title := "X".toList, scroll_offset_artist := 4,
        scroll_offset_song := 6, current_volume := 50 }
      (VolQuery.mpc 73)).current_title = "X".toList :=
  c4_scroll_reset
    { current_title := "X".toList, scroll_offset_artist := 4,
      scroll_offset_song := 6, current_volume := 50 }
    "Y".toList "X".toList (VolQuery.mpc 73)
    (by decide) (by decide) (Or.inr (by decide))

/-- C5: on the failing input the sampling loop of GPIOButton accepts a
second falling edge 0.07 s after the first because it compares the gap
against the hardcoded literal 0.05, although the configured debounce
attribute stored by the constructor (default 0.1) demands that the edge
be discarded: the two semantics produce different press counts. -/
theorem c5_debounce_divergence :
    (runButton 1 [(0, 1), (1, 103/100), (0, 107/100)]).presses = 2 ∧
    (runButtonClaimed buttonDebounceDefault 1
      [(0, 1), (1, 103/100), (0, 107/100)]).presses = 1 ∧
    ¬ ((107/100 : ℚ) - 1 ≥ buttonDebounceDefault) ∧
    ((107/100 : ℚ) - 1 ≥ 1/20) := by
  refine ⟨?_, ?_, ?_, ?_⟩
  · norm_num [runButton, button_sample_step]
  · norm_num [runButtonClaimed, button_sample_step_claimed, buttonDebounceDefault]
  · norm_num [buttonDebounceDefault]
  · norm_num

/-- C6 counterexample: with the volume source returning 73 the rendered
bar width is int(90 * 73 / 100) = 65, not round(90 * 73 / 100) = 66 as
the claim states. -/
theorem c6_counterexample :
    playing_bar_width (get_volume_percent (VolQuery.mpc 73)) = 65 ∧
    spec_round_bar_width (get_volume_percent (VolQuery.mpc 73)) = 66 ∧
    (playing_bar_width (get_volume_percent (VolQuery.mpc 73)) : ℤ) ≠
      spec_round_bar_width (get_volume_percent (VolQuery.mpc 73)) := by
  have hv : get_volume_percent (VolQuery.mpc 73) = 73 := by decide
  have hr : spec_round_bar_width 73 = 66 := by
    rw [spec_round_bar_width, round_eq]
    have : ((90 : ℚ) * (73 : ℕ) / 100 + 1 / 2) = 331 / 5 := by norm_num
    rw [this]
    rw [Int.floor_eq_iff]
    norm_num
  rw [hv]
  refine ⟨by decide, hr, ?_⟩
  rw [hr]
  decide

/-- C6 amended: with the volume source returning 73 the rendered bar
width is the truncation int(barMaxWidth * 73 / 100), 65 pixels for the
state machine screen (barMaxWidth = 90) and 51 for the display variant
(barMaxWidth = 70); for every volume value in 0..100, and for every
outcome of the clamped volume query, the bar width never exceeds
barMaxWidth. -/
theorem c6_bar_width (vol : ℕ) (q : VolQuery) (h : vol ≤ 100) :
    playing_bar_width (get_volume_percent (VolQuery.mpc 73)) = 65 ∧
    display_bar_width (get_volume_percent (VolQuery.mpc 73)) = 51 ∧
    playing_bar_width vol ≤ 90 ∧
    display_bar_width vol ≤ 70 ∧
    playing_bar_width (get_volume_percent q) ≤ 90 := by
  have hle : ∀ w : VolQuery, get_volume_percent w ≤ 100 := by
    intro w
    cases w with
    | mpc v => simp [get_volume_percent]
    | moode v => simp [get_volume_percent]
    | failure => simp [get_volume_percent]
  have hb : ∀ v : ℕ, v ≤ 100 → 90 * v / 100 ≤ 90 := by
    intro v hv
    calc 90 * v / 100 ≤ 90 * 100 / 100 :=
          Nat.div_le_div_right (Nat.mul_le_mul_left 90 hv)
    _ = 90 := by norm_num
  have hb2 : ∀ v : ℕ, v ≤ 100 → 70 * v / 100 ≤ 70 := by
    intro v hv
    calc 70 * v / 100 ≤ 70 * 100 / 100 :=
          Nat.div_le_div_right (Nat.mul_le_mul_left 70 hv)
    _ = 70 := by norm_num
  exact ⟨by decide, by decide, hb vol h, hb2 vol h,
    hb (get_volume_percent q) (hle q)⟩

/-- C6 amended witness: concrete volume 73 and a negative Moode reading. -/
theorem c6_bar_width_witness :
    playing_bar_width (get_volume_percent (VolQuery.mpc 73)) = 65 ∧
    display_bar_width (get_volume_percent (VolQuery.mpc 73)) = 51 ∧
    playing_bar_width 73 ≤ 90 ∧
    display_bar_width 73 ≤ 70 ∧
    playing_bar_width (get_volume_percent (VolQuery.moode (-5))) ≤ 90 :=
  c6_bar_width 73 (VolQuery.moode (-5)) (by decide)

/-- C7: get_state returns Playing exactly when the status query captured
an output containing the playing marker; marker-less output and every
exception path (timeout, non-zero exit, missing command) return Idle, and
the result is always one of the two states, so no error reaches the
caller. -/
theorem c7_get_state (r : StatusResult) (out : List Char)
    (h : containsSub playingMarker out = false) :
    (get_state r = STATE_PLAYING ↔
      ∃ o, r = StatusResult.ok o ∧ containsSub playingMarker o = true) ∧
    get_state (StatusResult.ok out) = STATE_IDLE ∧
    get_state StatusResult.timedOut = STATE_IDLE ∧
    get_state StatusResult.nonZeroExit = STATE_IDLE ∧
    get_state StatusResult.notFound = STATE_IDLE ∧
    (get_state r = STATE_PLAYING ∨ get_state r = STATE_IDLE) := by
  refine ⟨⟨?_, ?_⟩, by simp [get_state, h], rfl, rfl, rfl, ?_⟩
  · intro hp
    cases r with
    | ok o =>
      cases hco : containsSub playingMarker o with
      | false => rw [get_state, hco] at hp; simp [STATE_IDLE, STATE_PLAYING] at hp
      | true => exact ⟨o, rfl, hco⟩
    | timedOut => rw [get_state] at hp; simp [STATE_IDLE, STATE_PLAYING] at hp
    | nonZeroExit => rw [get_state] at hp; simp [STATE_IDLE, STATE_PLAYING] at hp
    | notFound => rw [get_state] at hp; simp [STATE_IDLE, STATE_PLAYING] at hp
  · rintro ⟨o, rfl, ho⟩
    simp [get_state, ho]
  · cases r with
    | ok o =>
      cases hco : containsSub playingMarker o with
      | false => right; simp [get_state, hco]
      | true => left; simp [get_state, hco]
    | timedOut => right; rfl
    | nonZeroExit => right; rfl
    | notFound => right; rfl

/-- C7 witness: a marker-bearing output, a marker-less output, and the
exception paths at concrete values. -/
theorem c7_get_state_witness :
    (get_state (StatusResult.ok "volume: 40%  [playing] #1/1".toList) =
        STATE_PLAYING ↔
      ∃ o, StatusResult.ok "volume: 40%  [playing] #1/1".toList =
          StatusResult.ok o ∧ containsSub playingMarker o = true) ∧
    get_state (StatusResult.ok "volume: 40%  [paused] #1/1".toList) =
      STATE_IDLE ∧
    get_state StatusResult.timedOut = STATE_IDLE ∧
    get_state StatusResult.nonZeroExit = STATE_IDLE ∧
    get_state StatusResult.notFound = STATE_IDLE ∧
    (get_state (StatusResult.ok "volume: 40%  [playing] #1/1".toList) =
        STATE_PLAYING ∨
      get_state (StatusResult.ok "volume: 40%  [playing] #1/1".toList) =
        STATE_IDLE) :=
  c7_get_state (StatusResult.ok "volume: 40%  [playing] #1/1".toList)
    "volume: 40%  [paused] #1/1".toList (by decide)

/-- C8 counterexample: the hard per-poll timeout of the metadata reader
(3.0 s) is not strictly shorter than the poll interval: it exceeds both
the 0.2 s interval that PlayingScreen configures and the 2.0 s default
interval of the handler, so the claim fails on the code. -/
theorem c8_counterexample :
    ¬ metadataPollTimeout < playingScreenInterval ∧
    ¬ metadataPollTimeout < handlerDefaultInterval := by
  constructor <;>
    norm_num [metadataPollTimeout, playingScreenInterval, handlerDefaultInterval]

/-- C8 amended: the reader applies a hard per-poll timeout of 3.0 s,
which is longer than the 0.2 s poll interval (up to 15 ticks may be
missed by one slow call, not one); a timed-out poll yields the empty
block, so no error propagates, the reader state is unchanged and no
title callback is made for that cycle. -/
theorem c8_poll_timeout (rs : ReaderState) :
    metadataPollTimeout = 3 ∧
    playingScreenInterval < metadataPollTimeout ∧
    handlerDefaultInterval < metadataPollTimeout ∧
    read_metadata_async MetaReadOutcome.timedOut = [] ∧
    loopStep rs (read_metadata_async MetaReadOutcome.timedOut) = (rs, none) ∧
    metadataPollTimeout ≤ 15 * playingScreenInterval := by
  refine ⟨rfl, ?_, ?_, rfl, ?_, ?_⟩
  · norm_num [playingScreenInterval, metadataPollTimeout]
  · norm_num [handlerDefaultInterval, metadataPollTimeout]
  · simp [loopStep, read_metadata_async]
  · norm_num [metadataPollTimeout, playingScreenInterval]

/-- C9: stopping the button twice equals stopping it once: after one
call the stop event is set and the line resource released; the second
call changes nothing and, like the first, never lets the release
exception escape the try/except pass. -/
theorem c9_stop_idempotent (s : GPIOButtonRes) :
    (gpio_button_stop s).2 = false ∧
    (gpio_button_stop s).1.stop_set = true ∧
    (gpio_button_stop s).1.line_released = true ∧
    gpio_button_stop ((gpio_button_stop s).1) = ((gpio_button_stop s).1, false) := by
  rcases s with ⟨a, b⟩
  cases a <;> cases b <;> simp [gpio_button_stop, releaseLine]

/-- C10: a fresh block with no StreamTitle match makes the loop deliver
the empty title, and an empty or repeated delivered title leaves the
displayed title, the derived artist and song, and both scroll offsets
unchanged, so the previously shown title persists. -/
theorem c10_empty_title_persists (rs : ReaderState) (sc : ScreenState)
    (meta t : List Char)
    (h1 : meta ≠ []) (h2 : meta ≠ rs.last_metadata)
    (h3 : extract_title meta = none)
    (h4 : t = [] ∨ t = sc.current_title) :
    (loopStep rs meta).2 = some (some []) ∧
    titleCoro sc (some []) = sc ∧
    split_artist_title (titleCoro sc (some [])).current_title =
      split_artist_title sc.current_title ∧
    (titleCoro sc (some [])).scroll_offset_artist = sc.scroll_offset_artist ∧
    (titleCoro sc (some [])).scroll_offset_song = sc.scroll_offset_song ∧
    titleCoro sc (some t) = sc := by
  have he : titleOrEmpty meta = [] := by rw [titleOrEmpty, h3]; rfl
  have hl : (loopStep rs meta).2 = some (some []) := by
    simp [loopStep, h1, h2, he]
  have hc : titleCoro sc (some []) = sc := by simp [titleCoro]
  have hu : titleCoro sc (some t) = sc := by
    rcases h4 with rfl | rfl <;> simp [titleCoro]
  exact ⟨hl, hc, by rw [hc], by rw [hc], by rw [hc], hu⟩

/-- C10 witness: a concrete tag-less fresh block and a screen showing a
previous title. -/
theorem c10_empty_title_persists_witness :
    (loopStep { last_metadata := [], last_title := [] } "no tag".toList).2 =
      some (some []) ∧
    titleCoro
      { current_title := "A - B".toList, scroll_offset_artist := 3,
        scroll_offset_song := 5, current_volume := 50 } (some []) =
      { current_title := "A - B".toList, scroll_offset_artist := 3,
        scroll_offset_song := 5, current_volume := 50 } ∧
    split_artist_title (titleCoro
      { current_title := "A - B".toList, scroll_offset_artist := 3,
        scroll_offset_song := 5, current_volume := 50 }
      (some [])).current_title =
      split_artist_title ("A - B".toList) ∧
    (titleCoro
      { current_title := "A - B".toList, scroll_offset_artist := 3,
        scroll_offset_song := 5, current_volume := 50 }
      (some [])).scroll_offset_artist = 3 ∧
    (titleCoro
      { current_title := "A - B".toList, scroll_offset_artist := 3,
        scroll_offset_song := 5, current_volume := 50 }
      (some [])).scroll_offset_song = 5 ∧
    titleCoro
      { current_title := "A - B".toList, scroll_offset_artist := 3,
        scroll_offset_song := 5, current_volume := 50 } (some []) =
      { current_title := "A - B".toList, scroll_offset_artist := 3,
        scroll_offset_song := 5, current_volume := 50 } :=
  c10_empty_title_persists { last_metadata := [], last_title := [] }
    { current_title := "A - B".toList, scroll_offset_artist := 3,
      scroll_offset_song := 5, current_volume := 50 }
    "no tag".toList []
    (by decide) (by decide) (by decide) (Or.inl rfl)
